import Mathlib

/-!
Shallow embedding of the MAD-Website-Backend form-submission service
(Express + Mongoose controllers and models) and proofs about its
validation, duplicate-guard, reference-generation, status-lifecycle and
newsletter-subscription logic.

Strings are modelled as Lean `String`/`List Char` (ASCII semantics for the
case conversions used by the code), timestamps as `Nat` (milliseconds),
document collections as Lean lists, and the random source feeding
`Math.random().toString(36).substring(2, 6)` as the list of base-36
fractional digits that `toString(36)` emits for the drawn value (empty when
the draw is 0, shorter than 4 when the expansion terminates early).
JavaScript `Number` values produced by `Number(x)` are modelled as
`Option ℚ` with `none` playing the role of `NaN`.
-/

namespace MAD

/-! ## JavaScript string primitives used by the controllers -/

/-- Model of JavaScript `String#toLowerCase` (ASCII range, which is all the
code relies on): lower-case every character. -/
def jsToLower (s : String) : String := ⟨s.data.map Char.toLower⟩

/-- Characterwise trim of leading and trailing whitespace. -/
def trimL (l : List Char) : List Char :=
  ((l.dropWhile Char.isWhitespace).reverse.dropWhile Char.isWhitespace).reverse

/-- Model of JavaScript `String#trim`. -/
def jsTrim (s : String) : String := ⟨trimL s.data⟩

/-- JavaScript word character class `\w`, i.e. `[A-Za-z0-9_]`. -/
def isWordChar (c : Char) : Bool := c.isAlphanum || c == '_'

/-- The eleven characters of the literal `javascript:` scheme. -/
def jsSchemeChars : List Char := ['j', 'a', 'v', 'a', 's', 'c', 'r', 'i', 'p', 't', ':']

/-- One global, case-insensitive pass of `replace(/javascript:/gi, '')`:
whenever the next eleven characters spell `javascript:` (ignoring case) they
are dropped and scanning resumes after them, mirroring how a JavaScript
global replace never rescans across a removal.  The fuel argument is only
there to make the recursion structural; every step consumes at least one
character, so the wrapper's `l.length` never runs out. -/
def removeJavascriptAux : Nat → List Char → List Char
  | _, [] => []
  | 0, l => l
  | fuel + 1, c :: cs =>
    if ((c :: cs).take 11).map Char.toLower = jsSchemeChars then
      removeJavascriptAux fuel ((c :: cs).drop 11)
    else
      c :: removeJavascriptAux fuel cs

/-- The `replace(/javascript:/gi, '')` pass. -/
def removeJavascript (l : List Char) : List Char := removeJavascriptAux l.length l

/-- Length of the match of `/on\w+=/i` at the head of the list, if any:
`on` (ignoring case), a maximal nonempty run of word characters, then `=`.
Because `=` is not a word character, the greedy run is the only viable one. -/
def onHandlerLen (l : List Char) : Option Nat :=
  match l with
  | c1 :: c2 :: rest =>
    if c1.toLower = 'o' ∧ c2.toLower = 'n' then
      if (rest.takeWhile isWordChar).isEmpty then none
      else
        match rest.dropWhile isWordChar with
        | '=' :: _ => some (2 + (rest.takeWhile isWordChar).length + 1)
        | _ => none
    else none
  | _ => none

/-- One global, case-insensitive pass of `replace(/on\w+=/gi, '')`, fueled
the same way as `removeJavascriptAux` (a match consumes at least four
characters, a miss consumes one). -/
def removeOnHandlersAux : Nat → List Char → List Char
  | _, [] => []
  | 0, l => l
  | fuel + 1, c :: cs =>
    match onHandlerLen (c :: cs) with
    | some n => removeOnHandlersAux fuel ((c :: cs).drop n)
    | none => c :: removeOnHandlersAux fuel cs

/-- The `replace(/on\w+=/gi, '')` pass. -/
def removeOnHandlers (l : List Char) : List Char := removeOnHandlersAux l.length l

/-- The controllers' shared `sanitizeInput`: trim, strip `<` and `>`,
strip case-insensitive `javascript:` occurrences, strip case-insensitive
inline event-handler patterns `on\w+=`. -/
def sanitizeInput (s : String) : String :=
  ⟨removeOnHandlers (removeJavascript
      ((trimL s.data).filter (fun c => !(c == '<' || c == '>'))))⟩

/-! ## The controllers' shared validators -/

/-- A character admitted by `[^\s@]` in the controller email regex. -/
def isEmailChar (c : Char) : Bool := !c.isWhitespace && c != '@'

/-- Test of the controller regex `/^[^\s@]+@[^\s@]+\.[^\s@]+$/`: a nonempty
run of non-space non-`@` characters, one `@`, and a domain of such
characters containing a `.` that is neither its first nor its last
character. -/
def emailRegexTest (s : String) : Bool :=
  match s.data.dropWhile (fun c => c != '@') with
  | '@' :: d =>
    let a := s.data.takeWhile (fun c => c != '@')
    !a.isEmpty && a.all isEmailChar && !d.isEmpty && d.all isEmailChar &&
      ((d.drop 1).dropLast).contains '.'
  | _ => false

/-- The controllers' `validateEmail`: required, regex-conformant, at most
254 characters. -/
def validateEmail (email : String) : Bool :=
  email != "" && emailRegexTest email && decide (email.length ≤ 254)

/-- The degenerate-pattern check of `validateMobile`: `/^0{10,}$/`,
`/^1{10,}$/` or `/^(.)\1{9,}$/` over the cleaned digit string. -/
def suspiciousMobile (l : List Char) : Bool :=
  (decide (10 ≤ l.length) && l.all (fun c => c == '0')) ||
  (decide (10 ≤ l.length) && l.all (fun c => c == '1')) ||
  (match l with
   | [] => false
   | c :: rest => decide (9 ≤ rest.length) && rest.all (fun d => d == c))

/-- The donation/volunteer/contact-us `validateMobile`: keep only digits,
require 10 to 15 of them, reject the degenerate repeated patterns; on
success the cleaned digit string is returned. -/
def validateMobile (mobile : String) : Option String :=
  if mobile = "" then none
  else
    let cleanPhone := mobile.data.filter Char.isDigit
    if cleanPhone.length < 10 || 15 < cleanPhone.length then none
    else if suspiciousMobile cleanPhone then none
    else some ⟨cleanPhone⟩

/-- The event-registration `validateMobileNumber`, regex
`/^[0-9]{10,15}$/`: 10 to 15 characters, all digits, nothing cleaned. -/
def validateMobileNumber (mobile : String) : Bool :=
  mobile != "" &&
  decide (10 ≤ mobile.length) && decide (mobile.length ≤ 15) &&
  mobile.data.all Char.isDigit

/-- The donation controller's `validateDonationAmount` over the value
`Number(amount)`, with `none` standing for `NaN`: reject `NaN` and
non-positive, reject below 1, reject above 10000000, otherwise return the
parsed amount. -/
def validateDonationAmount (amount : Option ℚ) : Option ℚ :=
  match amount with
  | none => none
  | some q =>
    if q ≤ 0 then none
    else if q < 1 then none
    else if 10000000 < q then none
    else some q

/-! ## The Mongoose schema email regex

All models share `match: [/^\w+([.-]?\w+)*@\w+([.-]?\w+)*(\.\w{2,3})+$/]`
on the email path. `\w+([.-]?\w+)*` is the language of nonempty strings of
word characters and single `.`/`-` separators that start and end with a
word character and never put two separators next to each other; the
trailing `(\.\w{2,3})+` is a nonempty chain of dot-separated two- or
three-character word groups. -/

/-- Separator admitted by `[.-]` in the schema email regex. -/
def isSepChar (c : Char) : Bool := c == '.' || c == '-'

/-- Recognizer for the tail of `\w+([.-]?\w+)*` once one word character has
been consumed. -/
def wordGroupsTail (l : List Char) : Bool :=
  match l with
  | [] => true
  | c :: rest =>
    if isWordChar c then wordGroupsTail rest
    else if isSepChar c then
      match rest with
      | [] => false
      | d :: rest2 => isWordChar d && wordGroupsTail rest2
    else false

/-- Recognizer for `\w+([.-]?\w+)*`. -/
def wordGroups (l : List Char) : Bool :=
  match l with
  | [] => false
  | c :: rest => isWordChar c && wordGroupsTail rest

/-- Recognizer for `(\.\w{2,3})+$`: a dot, two word characters, then
either a third word character and/or a recursive continuation, exhausting
the input (fueled to keep the recursion structural; each level consumes at
least three characters). -/
def tldChainAux : Nat → List Char → Bool
  | 0, _ => false
  | fuel + 1, l =>
    match l with
    | '.' :: a :: b :: rest =>
      isWordChar a && isWordChar b &&
        (match rest with
         | [] => true
         | c :: rest2 =>
           (isWordChar c && (rest2.isEmpty || tldChainAux fuel rest2)) ||
             tldChainAux fuel (c :: rest2))
    | _ => false

/-- Recognizer for `(\.\w{2,3})+$`. -/
def tldChain (l : List Char) : Bool := tldChainAux l.length l

/-- A domain matches `\w+([.-]?\w+)*(\.\w{2,3})+$` when it splits into a
`wordGroups` part followed by a `tldChain` part. -/
def domainTest (l : List Char) : Bool :=
  (List.range (l.length + 1)).any (fun i => wordGroups (l.take i) && tldChain (l.drop i))

/-- Test of the schema regex `/^\w+([.-]?\w+)*@\w+([.-]?\w+)*(\.\w{2,3})+$/`. -/
def schemaEmailTest (s : String) : Bool :=
  match s.data.dropWhile (fun c => c != '@') with
  | '@' :: d => wordGroups (s.data.takeWhile (fun c => c != '@')) && domainTest d
  | _ => false

/-! ## Reference-code generation

Every schema's `pre('save')` hook builds
`` `<PREFIX>-${Date.now().toString().slice(-8)}-${Math.random().toString(36).substring(2, 6).toUpperCase()}` ``. -/

/-- The decimal digit characters of `n.toString()`. -/
def digitChar (n : Nat) : Char := Char.ofNat (48 + n)

/-- Decimal representation of a natural number, most significant digit
first, as produced by JavaScript `Number#toString` on an integer. -/
def decimalDigits (n : Nat) : List Char :=
  if n = 0 then ['0'] else ((Nat.digits 10 n).map digitChar).reverse

/-- JavaScript `slice(-k)`: the last `k` characters (all of them when the
string is shorter). -/
def lastChars (k : Nat) (l : List Char) : List Char := l.drop (l.length - k)

/-- The `Date.now().toString().slice(-8)` fragment. -/
def timeFragment (nowMs : Nat) : String := ⟨lastChars 8 (decimalDigits nowMs)⟩

/-- The character `toString(36)` uses for one base-36 digit: `0`-`9` then
`a`-`z`. -/
def base36Digit (d : Fin 36) : Char :=
  if d.val < 10 then digitChar d.val else Char.ofNat (97 + (d.val - 10))

/-- The `Math.random().toString(36).substring(2, 6).toUpperCase()` suffix,
fed the base-36 fractional digits of the drawn value: up to four of them,
upper-cased.  When the expansion has fewer than four digits (for example a
draw of 0 prints as `"0"` and a draw of one half prints as `"0.i"`), the
suffix is correspondingly shorter. -/
def randSuffix (rand : List (Fin 36)) : String :=
  ⟨(rand.take 4).map (fun d => (base36Digit d).toUpper)⟩

/-- The shared reference-code builder of every `pre('save')` hook. -/
def refCode (pre : String) (nowMs : Nat) (rand : List (Fin 36)) : String :=
  pre ++ "-" ++ timeFragment nowMs ++ "-" ++ randSuffix rand

/-- A character admitted by `[A-Z0-9]`. -/
def isUpperAlnum (c : Char) : Bool := c.isUpper || c.isDigit

/-- Strip an expected literal prefix, returning the remainder. -/
def stripLit (pat l : List Char) : Option (List Char) :=
  match pat, l with
  | [], rest => some rest
  | _ :: _, [] => none
  | a :: pat2, b :: l2 => if a = b then stripLit pat2 l2 else none

/-- Test of the spec pattern `^<PREFIX>-\d{8}-[A-Z0-9]{4}$`. -/
def matchesRefPattern (pre s : String) : Bool :=
  match stripLit (pre.data ++ ['-']) s.data with
  | none => false
  | some rest =>
    decide (rest.length = 13) && (rest.take 8).all Char.isDigit &&
      decide ((rest.drop 8).take 1 = ['-']) && (rest.drop 9).all isUpperAlnum

/-! ## Small request and collection helpers -/

/-- JavaScript truthiness of an optional request string: present and
nonempty. -/
def truthy (f : Option String) : Bool :=
  match f with
  | some s => s != ""
  | none => false

/-- The controllers' `field ? sanitizeInput(field) : ''` idiom for optional
fields. -/
def optSanitize (f : Option String) : String :=
  match f with
  | some s => if s = "" then "" else sanitizeInput s
  | none => ""

/-- Update the first element satisfying the predicate, as a `findOne` +
mutate + `save` sequence (or a `findByIdAndUpdate`) does on the matched
document. -/
def updateFirst {α : Type _} (p : α → Bool) (f : α → α) : List α → List α
  | [] => []
  | x :: xs => if p x then f x :: xs else x :: updateFirst p f xs

/-- The regex `/^[0-9]{10,15}$/` shared by every schema mobile path and by
the event controller. -/
def mobileRegexTest (s : String) : Bool :=
  decide (10 ≤ s.length) && decide (s.length ≤ 15) && s.data.all Char.isDigit

/-! ## Newsletter (models/news.js, controllers/newsController.js) -/

/-- A persisted newsletter subscriber document. -/
structure Subscriber where
  email : String
  status : String
  subscribedAt : Nat
  unsubscribedAt : Option Nat
  unsubscribeToken : String
deriving Repr, DecidableEq

/-- The `subscribeNewsletter` controller: validate the email, then either
reject an active subscriber, reactivate an unsubscribed one in place
(fresh `subscribedAt`, cleared `unsubscribedAt`, rotated token), fall
through to a duplicate-key rejection for any other existing status, or
create a new subscriber (whose schema lower-cases, trims, requires and
regex-checks the email). -/
def subscribeNewsletter (db : List Subscriber) (emailField : Option String)
    (now : Nat) (newToken : String) : Nat × List Subscriber :=
  match emailField with
  | none => (400, db)
  | some raw =>
    if raw = "" then (400, db)
    else
      let email := sanitizeInput (jsToLower raw)
      if !validateEmail email then (400, db)
      else
        match db.find? (fun r => r.email == email) with
        | some sub =>
          if sub.status = "active" then (400, db)
          else if sub.status = "unsubscribed" then
            (200, updateFirst (fun r => r.email == email)
              (fun r => { r with
                          status := "active", subscribedAt := now,
                          unsubscribedAt := none, unsubscribeToken := newToken }) db)
          else (400, db)
        | none =>
          let stored := jsTrim (jsToLower email)
          if stored != "" && schemaEmailTest stored then
            (201, db ++ [{ email := stored, status := "active", subscribedAt := now,
                           unsubscribedAt := none, unsubscribeToken := newToken }])
          else (500, db)

/-- The `unsubscribeNewsletter` controller: look the subscriber up by
token (404 when absent), then mark it unsubscribed and save.  The token
itself is not cleared or rotated here. -/
def unsubscribeNewsletter (db : List Subscriber) (token : String) (now : Nat) :
    Nat × List Subscriber :=
  if token = "" then (400, db)
  else
    match db.find? (fun r => r.unsubscribeToken == token) with
    | none => (404, db)
    | some _ =>
      (200, updateFirst (fun r => r.unsubscribeToken == token)
        (fun r => { r with status := "unsubscribed", unsubscribedAt := some now }) db)

/-! ## Donation (models/Donation.js, donation controller) -/

/-- A persisted donation document (the lifecycle-relevant fields). -/
structure Donation where
  status : String
  paymentStatus : String
  contactedAt : Option Nat
  completedAt : Option Nat
  donationReference : Option String
deriving Repr, DecidableEq

/-- The donation status enumeration. -/
def donationStatuses : List String := ["pending", "contacted", "completed", "cancelled"]

/-- The donation payment-status enumeration. -/
def donationPaymentStatuses : List String := ["pending", "processing", "completed", "failed"]

/-- Truthiness plus enumeration membership, the
`status && [...].includes(status)` guard. -/
def enumFieldValid (enum : List String) (f : Option String) : Bool :=
  match f with
  | some s => s != "" && enum.contains s
  | none => false

/-- The `updateData` object assembled by `updateDonationStatus`. -/
structure DonationUpdateData where
  status : Option String
  contactedAt : Option Nat
  completedAt : Option Nat
  paymentStatus : Option String
deriving Repr, DecidableEq

/-- Assemble `updateData`: a valid status contributes the status and its
`contactedAt`/`completedAt` stamps, a valid payment status contributes the
payment status, anything else contributes nothing. -/
def buildDonationUpdateData (statusField payField : Option String) (now : Nat) :
    DonationUpdateData :=
  let u0 : DonationUpdateData := ⟨none, none, none, none⟩
  let u1 :=
    if enumFieldValid donationStatuses statusField then
      { u0 with
        status := statusField,
        contactedAt := if statusField = some "contacted" then some now else none,
        completedAt := if statusField = some "completed" then some now else none }
    else u0
  if enumFieldValid donationPaymentStatuses payField then { u1 with paymentStatus := payField }
  else u1

/-- The `Object.keys(updateData).length === 0` test. -/
def donationUpdateIsEmpty (u : DonationUpdateData) : Bool :=
  u.status.isNone && u.contactedAt.isNone && u.completedAt.isNone && u.paymentStatus.isNone

/-- Set the keys present in `updateData` on a document, as
`findByIdAndUpdate` does. -/
def applyDonationUpdate (u : DonationUpdateData) (r : Donation) : Donation :=
  { r with
    status := u.status.getD r.status,
    contactedAt := match u.contactedAt with | some t => some t | none => r.contactedAt,
    completedAt := match u.completedAt with | some t => some t | none => r.completedAt,
    paymentStatus := u.paymentStatus.getD r.paymentStatus }

/-- The `updateDonationStatus` admin endpoint over an id-keyed collection:
400 when the assembled update is empty, 404 when the id is absent,
otherwise apply the update to the matched document and return 200. -/
def updateDonationStatus (db : List (Nat × Donation)) (id : Nat)
    (statusField payField : Option String) (now : Nat) : Nat × List (Nat × Donation) :=
  let u := buildDonationUpdateData statusField payField now
  if donationUpdateIsEmpty u then (400, db)
  else
    match db.find? (fun r => r.1 == id) with
    | none => (404, db)
    | some _ =>
      (200, updateFirst (fun r => r.1 == id)
        (fun r => (r.1, applyDonationUpdate u r.2)) db)

/-- The donation schema's `pre('save')` hook: generate
`DON-<time>-<random>` only when no reference is present yet. -/
def donationPreSave (d : Donation) (nowMs : Nat) (rand : List (Fin 36)) : Donation :=
  if d.donationReference.getD "" = "" then
    { d with donationReference := some (refCode "DON" nowMs rand) }
  else d

/-! ## Media submission (models/mediaSubmission.js) -/

/-- A persisted media-submission document (the fields its `pre('save')`
hook touches). -/
structure MediaSubmission where
  submissionReference : Option String
  mediaType : String
  mediaUrl : String
deriving Repr, DecidableEq

/-- Literal list prefix test, used to implement `String#includes`. -/
def hasPrefixL : List Char → List Char → Bool
  | [], _ => true
  | _ :: _, [] => false
  | a :: pat2, b :: l2 => a == b && hasPrefixL pat2 l2

/-- Substring occurrence test, JavaScript `haystack.includes(needle)`. -/
def hasSubstr (sub : List Char) : List Char → Bool
  | [] => hasPrefixL sub []
  | c :: rest => hasPrefixL sub (c :: rest) || hasSubstr sub rest

/-- JavaScript `s.includes(t)`. -/
def strIncludes (s t : String) : Bool := hasSubstr t.data s.data

/-- URL markers the media hook treats as video content. -/
def videoMarkers : List String :=
  ["youtube", "youtu.be", "vimeo", ".mp4", ".mov", ".avi", ".wmv", ".flv", ".webm", ".mkv"]

/-- URL markers the media hook treats as image content. -/
def imageMarkers : List String :=
  [".jpg", ".jpeg", ".png", ".gif", ".webp", ".bmp", "imgur"]

/-- The media schema's `pre('save')` hook: generate the reference only when
absent, then auto-detect the media type from the lower-cased URL when it is
still `unknown`. -/
def mediaPreSave (m : MediaSubmission) (nowMs : Nat) (rand : List (Fin 36)) :
    MediaSubmission :=
  let m1 :=
    if m.submissionReference.getD "" = "" then
      { m with submissionReference := some (refCode "MED" nowMs rand) }
    else m
  if m1.mediaType = "unknown" && m1.mediaUrl != "" then
    let url := jsToLower m1.mediaUrl
    if videoMarkers.any (fun t => strIncludes url t) then { m1 with mediaType := "video" }
    else if imageMarkers.any (fun t => strIncludes url t) then { m1 with mediaType := "image" }
    else m1
  else m1

/-! ## Event registration (models/eventRegistration.js, event controller) -/

/-- A persisted event-registration document (bookkeeping defaults such as
`confirmationSent`, `remindersSent` and `attendanceStatus` are omitted;
nothing in the embedded operations reads or writes them). -/
structure EventRegistration where
  fullName : String
  email : String
  mobileNumber : String
  city : String
  occupation : String
  organization : String
  isPersonWithDisability : String
  disabilityType : String
  otherDisabilityText : String
  eventId : Nat
  eventTitle : String
  registrationReference : Option String
  registrationStatus : String
  registrationDate : Nat
  notes : String
  updatedAt : Nat
  ipAddress : String
  userAgent : String
deriving Repr, DecidableEq

/-- The registration status enumeration. -/
def registrationStatuses : List String := ["confirmed", "waitlist", "cancelled"]

/-- The schema's disability-type enumeration (the empty string is listed as
a member). -/
def disabilityTypes : List String :=
  ["Visual Impairment", "Hearing Impairment", "Locomotor Disability",
   "Intellectual Disability", "Speech & Language Disability",
   "Multiple Disabilities", "Other (please specify)", ""]

/-- An incoming registration request body.  The event id is modelled
post-`parseInt`, with `none` standing for an absent or unparsable value. -/
structure EventRegRequest where
  fullName : Option String
  email : Option String
  mobileNumber : Option String
  city : Option String
  occupation : Option String
  organization : Option String
  isPersonWithDisability : Option String
  disabilityType : Option String
  otherDisabilityText : Option String
  eventId : Option Nat
  eventTitle : Option String
deriving Repr, DecidableEq

/-- The schema's `isAlreadyRegistered` static: `findOne` on the lower-cased,
trimmed email together with the event id. -/
def isAlreadyRegistered (db : List EventRegistration) (email : String) (eventId : Nat) :
    Bool :=
  (db.find? (fun r => r.email == jsTrim (jsToLower email) && r.eventId == eventId)).isSome

/-- The Mongoose validators of the event-registration schema, run on
`create`: required fields, length bounds, the email and mobile regexes, the
two enumerations, and the two conditional disability validators. -/
def eventRegSchemaValid (r : EventRegistration) : Bool :=
  r.fullName != "" && decide (2 ≤ r.fullName.length) && decide (r.fullName.length ≤ 100) &&
  r.email != "" && schemaEmailTest r.email &&
  r.mobileNumber != "" && mobileRegexTest r.mobileNumber &&
  decide (r.city.length ≤ 100) && decide (r.occupation.length ≤ 100) &&
  decide (r.organization.length ≤ 200) &&
  r.isPersonWithDisability != "" && ["Yes", "No"].contains r.isPersonWithDisability &&
  disabilityTypes.contains r.disabilityType &&
  !(r.isPersonWithDisability == "Yes" && r.disabilityType == "") &&
  decide (r.otherDisabilityText.length ≤ 200) &&
  !(r.disabilityType == "Other (please specify)" && r.otherDisabilityText == "") &&
  r.eventTitle != "" &&
  registrationStatuses.contains r.registrationStatus

/-- The document `registerForEvent` hands to `EventRegistration.create`,
assembled from the sanitized request fields (the Mongoose setters trim
every trimmed path and lower-case the email; the controller blanks the
disability fields that do not apply; the `pre('save')` hook stamps the
reference). -/
def eventRegOf (req : EventRegRequest) (eventId : Nat) (now : Nat)
    (rand : List (Fin 36)) (ip ua : String) : EventRegistration :=
  { fullName := jsTrim (sanitizeInput (req.fullName.getD "")),
    email := jsTrim (jsToLower (sanitizeInput (jsToLower (req.email.getD "")))),
    mobileNumber := jsTrim (sanitizeInput (req.mobileNumber.getD "")),
    city := jsTrim (optSanitize req.city),
    occupation := jsTrim (optSanitize req.occupation),
    organization := jsTrim (optSanitize req.organization),
    isPersonWithDisability := req.isPersonWithDisability.getD "",
    disabilityType :=
      if req.isPersonWithDisability.getD "" == "Yes" then optSanitize req.disabilityType else "",
    otherDisabilityText :=
      jsTrim (if optSanitize req.disabilityType == "Other (please specify)" then
                optSanitize req.otherDisabilityText
              else ""),
    eventId := eventId,
    eventTitle := jsTrim (sanitizeInput (req.eventTitle.getD "")),
    registrationReference := some (refCode "REG" now rand),
    registrationStatus := "confirmed",
    registrationDate := now,
    notes := "",
    updatedAt := now,
    ipAddress := ip,
    userAgent := ua }

/-- The `registerForEvent` controller: presence checks, sanitization, field
validation, the duplicate-registration guard (409), then `create` (201 when
the schema validators pass, 400 on a `ValidationError`). -/
def registerForEvent (db : List EventRegistration) (req : EventRegRequest)
    (now : Nat) (rand : List (Fin 36)) (ip ua : String) : Nat × List EventRegistration :=
  if !(truthy req.fullName && truthy req.email && truthy req.mobileNumber &&
       truthy req.isPersonWithDisability && req.eventId.isSome && truthy req.eventTitle) then
    (400, db)
  else
    let fullName := sanitizeInput (req.fullName.getD "")
    let email := sanitizeInput (jsToLower (req.email.getD ""))
    let mobileNumber := sanitizeInput (req.mobileNumber.getD "")
    let disabilityType := optSanitize req.disabilityType
    let otherDisabilityText := optSanitize req.otherDisabilityText
    let eventId := req.eventId.getD 0
    if fullName.length < 2 || 100 < fullName.length then (400, db)
    else if !validateEmail email then (400, db)
    else if !validateMobileNumber mobileNumber then (400, db)
    else if !(["Yes", "No"].contains (req.isPersonWithDisability.getD "")) then (400, db)
    else if req.isPersonWithDisability.getD "" == "Yes" && disabilityType == "" then (400, db)
    else if disabilityType == "Other (please specify)" && otherDisabilityText == "" then (400, db)
    else if isAlreadyRegistered db email eventId then (409, db)
    else
      let newReg := eventRegOf req eventId now rand ip ua
      if eventRegSchemaValid newReg then (201, db ++ [newReg]) else (400, db)

/-- The `updateRegistrationStatus` admin endpoint: 400 on any target status
outside the enumeration (before touching the collection), 500 when the
notes exceed the schema bound, 404 on an unknown id, otherwise set the
status, the notes (defaulted to the empty string) and `updatedAt`. -/
def updateRegistrationStatus (db : List (Nat × EventRegistration)) (id : Nat)
    (statusField notesField : Option String) (now : Nat) :
    Nat × List (Nat × EventRegistration) :=
  match statusField with
  | none => (400, db)
  | some s =>
    if !registrationStatuses.contains s then (400, db)
    else
      let notes := jsTrim (notesField.getD "")
      if 1000 < notes.length then (500, db)
      else
        match db.find? (fun r => r.1 == id) with
        | none => (404, db)
        | some _ =>
          (200, updateFirst (fun r => r.1 == id)
            (fun r => (r.1, { r.2 with
                              registrationStatus := s, notes := notes,
                              updatedAt := now })) db)

/-! ## Contact-us (part models/contactUs.js, contact-us controller) -/

/-- A persisted contact-us document. -/
structure ContactUs where
  fullName : String
  email : String
  mobile : String
  subject : String
  message : String
  status : String
  priority : String
  ticketReference : Option String
  ipAddress : String
  userAgent : String
  createdAt : Nat
deriving Repr, DecidableEq

/-- The contact-us subject enumeration. -/
def contactSubjects : List String :=
  ["general-inquiry", "volunteering", "internship", "partnership", "donation", "other"]

/-- The contact-us status enumeration. -/
def contactStatuses : List String := ["new", "in-progress", "resolved", "closed"]

/-- The contact-us priority enumeration. -/
def contactPriorities : List String := ["low", "medium", "high", "urgent"]

/-- The priority the controller derives from the (sanitized) subject:
`donation` and `partnership` are high, `general-inquiry` is low, everything
else keeps the `medium` default. -/
def contactPriority (subject : String) : String :=
  if subject == "donation" || subject == "partnership" then "high"
  else if subject == "general-inquiry" then "low"
  else "medium"

/-- An incoming contact-us request body.  There is no priority field: the
controller never reads one. -/
structure ContactUsRequest where
  fullName : Option String
  email : Option String
  mobile : Option String
  subject : Option String
  message : Option String
deriving Repr, DecidableEq

/-- The Mongoose validators of the contact-us schema, run on `create`. -/
def contactUsSchemaValid (r : ContactUs) : Bool :=
  r.fullName != "" && decide (2 ≤ r.fullName.length) && decide (r.fullName.length ≤ 100) &&
  r.email != "" && schemaEmailTest r.email &&
  r.mobile != "" && mobileRegexTest r.mobile &&
  r.subject != "" && contactSubjects.contains r.subject &&
  r.message != "" && decide (10 ≤ r.message.length) && decide (r.message.length ≤ 1500) &&
  contactStatuses.contains r.status &&
  contactPriorities.contains r.priority

/-- The document `submitContactUs` hands to `ContactUs.create`, with the
Mongoose setters applied and the `pre('save')` ticket reference stamped. -/
def contactUsOf (req : ContactUsRequest) (cleanPhone : String) (now : Nat)
    (rand : List (Fin 36)) (ip ua : String) : ContactUs :=
  { fullName := jsTrim (sanitizeInput (req.fullName.getD "")),
    email := jsTrim (jsToLower (sanitizeInput (jsToLower (req.email.getD "")))),
    mobile := jsTrim cleanPhone,
    subject := sanitizeInput (req.subject.getD ""),
    message := jsTrim (sanitizeInput (req.message.getD "")),
    status := "new",
    priority := contactPriority (sanitizeInput (req.subject.getD "")),
    ticketReference := some (refCode "TICKET" now rand),
    ipAddress := ip,
    userAgent := ua,
    createdAt := now }

/-- The `submitContactUs` controller: presence checks, sanitization, field
validation, the fifteen-minute same-email duplicate guard (429), the
subject-derived priority, then `create`. -/
def submitContactUs (db : List ContactUs) (req : ContactUsRequest)
    (now : Nat) (rand : List (Fin 36)) (ip ua : String) : Nat × List ContactUs :=
  if !(truthy req.fullName && truthy req.email && truthy req.mobile &&
       truthy req.subject && truthy req.message) then (400, db)
  else
    let fullName := sanitizeInput (req.fullName.getD "")
    let email := sanitizeInput (jsToLower (req.email.getD ""))
    let mobile := sanitizeInput (req.mobile.getD "")
    let subject := sanitizeInput (req.subject.getD "")
    let message := sanitizeInput (req.message.getD "")
    if fullName.length < 2 || 100 < fullName.length then (400, db)
    else if !validateEmail email then (400, db)
    else
      match validateMobile mobile with
      | none => (400, db)
      | some cleanPhone =>
        if !contactSubjects.contains subject then (400, db)
        else if message.length < 10 || 1500 < message.length then (400, db)
        else if (db.find? (fun r => r.email == email && now - 900000 ≤ r.createdAt)).isSome then
          (429, db)
        else
          let newC := contactUsOf req cleanPhone now rand ip ua
          if contactUsSchemaValid newC then (201, db ++ [newC]) else (500, db)

/-! ## Volunteer (models/volunteer.js, volunteer controller) -/

/-- A persisted volunteer document. -/
structure Volunteer where
  fullName : String
  email : String
  mobile : String
  expertise : List String
  howToHelp : String
  message : String
  status : String
  volunteerReference : Option String
  ipAddress : String
  userAgent : String
  createdAt : Nat
deriving Repr, DecidableEq

/-- The volunteer expertise enumeration. -/
def validExpertise : List String :=
  ["Education", "Skill Development", "Content Creation", "Advocacy",
   "Event Coordination", "Research & Policy", "More"]

/-- The volunteer status enumeration. -/
def volunteerStatuses : List String :=
  ["pending", "reviewed", "approved", "active", "inactive", "rejected"]

/-- An incoming volunteer registration body; `expertise` is `none` when the
request did not carry an array. -/
structure VolunteerRequest where
  fullName : Option String
  email : Option String
  mobile : Option String
  expertise : Option (List String)
  howToHelp : Option String
  message : Option String
deriving Repr, DecidableEq

/-- The Mongoose validators of the volunteer schema, run on `create`. -/
def volunteerSchemaValid (r : Volunteer) : Bool :=
  r.fullName != "" && decide (2 ≤ r.fullName.length) && decide (r.fullName.length ≤ 100) &&
  r.email != "" && schemaEmailTest r.email &&
  r.mobile != "" && mobileRegexTest r.mobile &&
  r.expertise.all (fun e => validExpertise.contains e) &&
  r.howToHelp != "" && decide (10 ≤ r.howToHelp.length) && decide (r.howToHelp.length ≤ 1000) &&
  decide (r.message.length ≤ 500) &&
  volunteerStatuses.contains r.status

/-- The document `registerVolunteer` hands to `Volunteer.create`, with the
Mongoose setters applied, the expertise array already filtered to the
enumeration, and the `pre('save')` reference stamped. -/
def volunteerOf (req : VolunteerRequest) (cleanPhone : String)
    (sanitizedExpertise : List String) (now : Nat)
    (rand : List (Fin 36)) (ip ua : String) : Volunteer :=
  { fullName := jsTrim (sanitizeInput (req.fullName.getD "")),
    email := jsTrim (jsToLower (sanitizeInput (jsToLower (req.email.getD "")))),
    mobile := jsTrim cleanPhone,
    expertise := sanitizedExpertise,
    howToHelp := jsTrim (sanitizeInput (req.howToHelp.getD "")),
    message := jsTrim (optSanitize req.message),
    status := "pending",
    volunteerReference := some (refCode "VOL" now rand),
    ipAddress := ip,
    userAgent := ua,
    createdAt := now }

/-- The `registerVolunteer` controller: presence checks, sanitization,
field validation, silent filtering of the expertise array down to the
enumeration, the optional-message bound, the email-uniqueness guard (400),
then `create`. -/
def registerVolunteer (db : List Volunteer) (req : VolunteerRequest)
    (now : Nat) (rand : List (Fin 36)) (ip ua : String) : Nat × List Volunteer :=
  if !(truthy req.fullName && truthy req.email && truthy req.mobile &&
       truthy req.howToHelp) then (400, db)
  else
    let fullName := sanitizeInput (req.fullName.getD "")
    let email := sanitizeInput (jsToLower (req.email.getD ""))
    let mobile := sanitizeInput (req.mobile.getD "")
    let howToHelp := sanitizeInput (req.howToHelp.getD "")
    let message := optSanitize req.message
    if fullName.length < 2 || 100 < fullName.length then (400, db)
    else if !validateEmail email then (400, db)
    else
      match validateMobile mobile with
      | none => (400, db)
      | some cleanPhone =>
        if howToHelp.length < 10 || 1000 < howToHelp.length then (400, db)
        else
          let sanitizedExpertise :=
            ((req.expertise.getD []).map sanitizeInput).filter
              (fun e => validExpertise.contains e)
          if message != "" && 500 < message.length then (400, db)
          else if (db.find? (fun r => r.email == email)).isSome then (400, db)
          else
            let newV := volunteerOf req cleanPhone sanitizedExpertise now rand ip ua
            if volunteerSchemaValid newV then (201, db ++ [newV]) else (500, db)

/-! ## Concrete sample data used to instantiate the theorems -/

/-- A donation collection with one pending record. -/
def donationDb1 : List (Nat × Donation) :=
  [(7, ⟨"pending", "pending", none, none, some "DON-00000001-AAAA"⟩)]

/-- A subscriber collection with one active subscriber. -/
def subscriberDb1 : List Subscriber :=
  [⟨"sam@example.com", "active", 1000, none, "tok1"⟩]

/-- A subscriber collection with one unsubscribed subscriber. -/
def subscriberDb2 : List Subscriber :=
  [⟨"sam@example.com", "unsubscribed", 1000, some 2000, "tok1"⟩]

/-- A fresh donation document, before first persistence. -/
def donationDoc0 : Donation := ⟨"pending", "pending", none, none, none⟩

/-- A fresh media submission document, before first persistence. -/
def mediaDoc0 : MediaSubmission := ⟨none, "unknown", "https://youtu.be/x"⟩

/-- A volunteer registration carrying one unlisted expertise value. -/
def volunteerReqCooking : VolunteerRequest :=
  { fullName := some "Jane Doe", email := some "jane@example.com",
    mobile := some "9876543210", expertise := some ["Cooking", "Education"],
    howToHelp := some "I can help teach weekend classes", message := some "" }

/-- A well-formed contact-us submission with subject `donation`. -/
def contactReq1 : ContactUsRequest :=
  { fullName := some "John Doe", email := some "john@example.com",
    mobile := some "9876543210", subject := some "donation",
    message := some "Hello, I would like to donate money." }

/-- The contact-us record `contactReq1` produces at time 1999500000. -/
def contactDb1 : List ContactUs :=
  [contactUsOf contactReq1 "9876543210" 1999500000 [] "ip" "ua"]

/-- A well-formed event-registration request, before choosing the event. -/
def eventReqBase : EventRegRequest :=
  { fullName := some "Jane Doe", email := some "jane@example.com",
    mobileNumber := some "9876543210", city := none, occupation := none,
    organization := none, isPersonWithDisability := some "No",
    disabilityType := none, otherDisabilityText := none,
    eventId := none, eventTitle := some "Annual Meetup" }

/-! # General lemmas about the embedded operations -/

theorem updateFirst_length {α : Type _} (p : α → Bool) (f : α → α) (l : List α) :
    (updateFirst p f l).length = l.length := by
  induction l with
  | nil => rfl
  | cons x xs ih => by_cases h : p x <;> simp [updateFirst, h, ih]

theorem updateFirst_map {α β : Type _} (p : α → Bool) (f : α → α) (g : α → β)
    (hg : ∀ a, g (f a) = g a) (l : List α) :
    (updateFirst p f l).map g = l.map g := by
  induction l with
  | nil => rfl
  | cons x xs ih => by_cases h : p x <;> simp [updateFirst, h, ih, hg]

theorem mem_updateFirst_of_find? {α : Type _} {p : α → Bool} {a : α} (f : α → α) :
    ∀ {l : List α}, l.find? p = some a → f a ∈ updateFirst p f l := by
  intro l
  induction l with
  | nil => intro h; cases h
  | cons x xs ih =>
    intro h
    by_cases hp : p x
    · rw [List.find?_cons_of_pos _ hp] at h
      cases h
      simp [updateFirst, hp]
    · rw [List.find?_cons_of_neg _ hp] at h
      simp only [updateFirst, if_neg hp, List.mem_cons]
      exact Or.inr (ih h)

theorem isSome_eq_false_iff_none {α : Type _} {x : Option α} :
    x.isSome = false ↔ x = none := by
  cases x <;> simp

theorem updateFirst_any {α : Type _} (q p : α → Bool) (f : α → α)
    (hf : ∀ a, p (f a) = p a) (l : List α) :
    (updateFirst q f l).any p = l.any p := by
  induction l with
  | nil => rfl
  | cons x xs ih => by_cases h : q x <;> simp [updateFirst, h, ih, hf]

/-! # C8: donation amount boundaries -/

/-- C8: the donation amount validator accepts exactly the numeric amounts
in the inclusive range from 1 to 10000000; in particular 0 and 10000001
are rejected, 1 and 10000000 are accepted, and the non-numeric (`NaN`)
input is rejected. -/
theorem validateDonationAmount_range :
    (∀ x : Option ℚ, (validateDonationAmount x).isSome = true ↔
        ∃ q : ℚ, x = some q ∧ 1 ≤ q ∧ q ≤ 10000000) ∧
    validateDonationAmount (some 0) = none ∧
    validateDonationAmount (some 10000001) = none ∧
    validateDonationAmount (some 1) = some 1 ∧
    validateDonationAmount (some 10000000) = some 10000000 ∧
    validateDonationAmount none = none := by
  refine ⟨?_, by decide, by decide, by decide, by decide, rfl⟩
  intro x
  cases x with
  | none => simp [validateDonationAmount]
  | some q =>
    simp only [validateDonationAmount]
    split_ifs with h1 h2 h3
    · constructor
      · intro hcon
        exact absurd hcon (by simp)
      · rintro ⟨q2, heq, hq1, hq2⟩
        cases heq
        exact absurd hq1 (by linarith)
    · constructor
      · intro hcon
        exact absurd hcon (by simp)
      · rintro ⟨q2, heq, hq1, hq2⟩
        cases heq
        exact absurd hq1 (by linarith)
    · constructor
      · intro hcon
        exact absurd hcon (by simp)
      · rintro ⟨q2, heq, hq1, hq2⟩
        cases heq
        exact absurd hq2 (by linarith)
    · exact ⟨fun _ => ⟨q, rfl, by linarith, by linarith⟩, fun _ => rfl⟩

/-! # C1: status update with an unlisted status value -/

/-- C1 counterexample: a donation status-update request whose target
status `bogus` is outside the enumeration but which also carries the valid
payment status `completed` returns 200, not 400 (the record's status field
is still untouched; only the payment status changes). -/
theorem updateDonationStatus_invalid_status_counterexample :
    donationStatuses.contains "bogus" = false ∧
    (updateDonationStatus donationDb1 7 (some "bogus") (some "completed") 42).1 = 200 ∧
    (updateDonationStatus donationDb1 7 (some "bogus") (some "completed") 42).2
      = [(7, ⟨"pending", "completed", none, none, some "DON-00000001-AAAA"⟩)] := by
  refine ⟨by decide, by decide, by decide⟩

/-- C1 amended: an unlisted target status never changes any record's
status field.  The event-registration endpoint always returns 400 with the
collection untouched; the donation endpoint returns 400 (untouched) only
when the request carries no valid `paymentStatus` alongside — otherwise it
applies the payment status and answers 200. -/
theorem statusUpdate_invalid_status_amended
    (db : List (Nat × Donation)) (db2 : List (Nat × EventRegistration))
    (id id2 : Nat) (s : String) (pay notes : Option String) (now now2 : Nat)
    (hs : donationStatuses.contains s = false)
    (hs2 : registrationStatuses.contains s = false) :
    ((updateDonationStatus db id (some s) pay now).2.map (fun p => (p.1, p.2.status))
        = db.map (fun p => (p.1, p.2.status))) ∧
    (enumFieldValid donationPaymentStatuses pay = false →
        updateDonationStatus db id (some s) pay now = (400, db)) ∧
    updateRegistrationStatus db2 id2 (some s) notes now2 = (400, db2) := by
  have hsmem : s ∉ donationStatuses := by simpa using hs
  have hsmem2 : s ∉ registrationStatuses := by simpa using hs2
  have hsv : enumFieldValid donationStatuses (some s) = false := by
    simp [enumFieldValid, hsmem]
  have hbuild : buildDonationUpdateData (some s) pay now =
      (if enumFieldValid donationPaymentStatuses pay then
        (⟨none, none, none, pay⟩ : DonationUpdateData)
      else ⟨none, none, none, none⟩) := by
    simp [buildDonationUpdateData, hsv]
  refine ⟨?_, ?_, ?_⟩
  · by_cases hp : enumFieldValid donationPaymentStatuses pay = true
    · obtain ⟨p, rfl⟩ : ∃ p, pay = some p := by
        cases pay with
        | none => simp [enumFieldValid] at hp
        | some p => exact ⟨p, rfl⟩
      simp only [updateDonationStatus, hbuild, hp, if_true]
      have hne : donationUpdateIsEmpty ⟨none, none, none, some p⟩ = false := rfl
      rw [hne]
      simp only [Bool.false_eq_true, if_false]
      cases hfind : db.find? (fun r => r.1 == id) with
      | none => rfl
      | some r =>
        exact updateFirst_map _ _ _ (fun a => by simp [applyDonationUpdate]) db
    · rw [Bool.not_eq_true] at hp
      simp only [updateDonationStatus, hbuild, hp, Bool.false_eq_true, if_false]
      rw [if_pos (by decide)]
  · intro hp
    simp only [updateDonationStatus, hbuild, hp, Bool.false_eq_true, if_false]
    rw [if_pos (by decide)]
  · simp [updateRegistrationStatus, hsmem2]

/-- C1 amended, instantiated: the concrete invalid status `bogus` applied
to the sample collections. -/
theorem statusUpdate_invalid_status_amended_witness :
    ((updateDonationStatus donationDb1 7 (some "bogus") (some "completed") 42).2.map
        (fun p => (p.1, p.2.status))
      = donationDb1.map (fun p => (p.1, p.2.status))) ∧
    (enumFieldValid donationPaymentStatuses (some "completed") = false →
        updateDonationStatus donationDb1 7 (some "bogus") (some "completed") 42
          = (400, donationDb1)) ∧
    updateRegistrationStatus [] 3 (some "bogus") none 9 = (400, []) :=
  statusUpdate_invalid_status_amended donationDb1 [] 7 3 "bogus" (some "completed") none 42 9
    (by decide) (by decide)

/-! # C2: unsubscribe with an already-unsubscribed token -/

/-- C2 counterexample: unsubscribing leaves the token in place, so after a
successful unsubscribe the same token still finds the record and a second
GET with it returns 200 again — not 404 as the claim states. -/
theorem unsubscribe_already_unsubscribed_counterexample :
    (unsubscribeNewsletter subscriberDb1 "tok1" 2000).2
      = [⟨"sam@example.com", "unsubscribed", 1000, some 2000, "tok1"⟩] ∧
    (unsubscribeNewsletter (unsubscribeNewsletter subscriberDb1 "tok1" 2000).2 "tok1" 3000).1
      = 200 :=
  ⟨by decide, by decide⟩

/-- C2 amended: the unsubscribe endpoint does not rotate or clear the
token, so as long as some record carries the token it keeps answering 200,
also for a subscriber that is already unsubscribed; 404 arises only for a
token no record holds (for instance after a re-subscription rotated it). -/
theorem unsubscribe_found (db : List Subscriber) (t : String) (n : Nat) (r : Subscriber)
    (ht : t ≠ "")
    (hr : db.find? (fun x => x.unsubscribeToken == t) = some r) :
    unsubscribeNewsletter db t n
      = (200, updateFirst (fun x => x.unsubscribeToken == t)
          (fun x => { x with status := "unsubscribed", unsubscribedAt := some n }) db) := by
  simp only [unsubscribeNewsletter]
  rw [if_neg ht, hr]

theorem unsubscribe_token_amended (db : List Subscriber) (t : String) (n1 n2 : Nat)
    (ht : t ≠ "")
    (hmem : db.any (fun r => r.unsubscribeToken == t) = true) :
    (unsubscribeNewsletter db t n1).1 = 200 ∧
    (unsubscribeNewsletter (unsubscribeNewsletter db t n1).2 t n2).1 = 200 := by
  have hfind1 : (db.find? (fun r => r.unsubscribeToken == t)).isSome = true := by
    rw [List.find?_isSome]
    exact List.any_eq_true.mp hmem
  obtain ⟨r1, hr1⟩ := Option.isSome_iff_exists.mp hfind1
  have hres1 := unsubscribe_found db t n1 r1 ht hr1
  have hany2 : (updateFirst (fun x => x.unsubscribeToken == t)
      (fun x => { x with status := "unsubscribed", unsubscribedAt := some n1 }) db).any
      (fun r => r.unsubscribeToken == t) = true :=
    (updateFirst_any (fun x => x.unsubscribeToken == t) (fun r => r.unsubscribeToken == t)
      (fun x => { x with status := "unsubscribed", unsubscribedAt := some n1 })
      (fun a => rfl) db).trans hmem
  have hfind2 : ((updateFirst (fun x => x.unsubscribeToken == t)
      (fun x => { x with status := "unsubscribed", unsubscribedAt := some n1 }) db).find?
      (fun r => r.unsubscribeToken == t)).isSome = true := by
    rw [List.find?_isSome]
    exact List.any_eq_true.mp hany2
  obtain ⟨r2, hr2⟩ := Option.isSome_iff_exists.mp hfind2
  have hsnd : (unsubscribeNewsletter db t n1).2
      = updateFirst (fun x => x.unsubscribeToken == t)
          (fun x => { x with status := "unsubscribed", unsubscribedAt := some n1 }) db := by
    rw [hres1]
  refine ⟨by rw [hres1], ?_⟩
  rw [hsnd, unsubscribe_found _ t n2 r2 ht hr2]

/-- C2 amended, instantiated: a token held by an already-unsubscribed
subscriber answers 200 on both of two consecutive unsubscribe calls. -/
theorem unsubscribe_token_amended_witness :
    (unsubscribeNewsletter subscriberDb2 "tok1" 7000).1 = 200 ∧
    (unsubscribeNewsletter (unsubscribeNewsletter subscriberDb2 "tok1" 7000).2 "tok1" 8000).1
      = 200 :=
  unsubscribe_token_amended subscriberDb2 "tok1" 7000 8000 (by decide) (by decide)

/-! # C9: resubscribing an unsubscribed email -/

/-- C9: subscribing an email whose record is unsubscribed answers 200 and
reactivates that same record in place — status `active`, `subscribedAt`
set to the present call's timestamp, `unsubscribedAt` cleared, token
rotated — without changing the number of records. -/
theorem subscribe_reactivates_unsubscribed
    (db : List Subscriber) (raw : String) (now : Nat) (tok : String) (sub : Subscriber)
    (hraw : raw ≠ "")
    (hval : validateEmail (sanitizeInput (jsToLower raw)) = true)
    (hfind : db.find? (fun r => r.email == sanitizeInput (jsToLower raw)) = some sub)
    (hstat : sub.status = "unsubscribed") :
    (subscribeNewsletter db (some raw) now tok).1 = 200 ∧
    (subscribeNewsletter db (some raw) now tok).2.length = db.length ∧
    { sub with
      status := "active", subscribedAt := now,
      unsubscribedAt := none, unsubscribeToken := tok }
        ∈ (subscribeNewsletter db (some raw) now tok).2 := by
  have hres : subscribeNewsletter db (some raw) now tok
      = (200, updateFirst (fun r => r.email == sanitizeInput (jsToLower raw))
          (fun r => { r with
                      status := "active", subscribedAt := now,
                      unsubscribedAt := none, unsubscribeToken := tok }) db) := by
    simp only [subscribeNewsletter]
    rw [if_neg hraw, hval, hfind]
    simp only [Bool.not_true, Bool.false_eq_true, if_false]
    rw [hstat]
    rw [if_neg (by decide), if_pos rfl]
  refine ⟨by rw [hres], ?_, ?_⟩
  · rw [hres]
    exact updateFirst_length _ _ db
  · rw [hres]
    exact mem_updateFirst_of_find? _ hfind

/-- C9, instantiated: resubscribing the unsubscribed sample record. -/
theorem subscribe_reactivates_unsubscribed_witness :
    (subscribeNewsletter subscriberDb2 (some "sam@example.com") 5000 "tok2").1 = 200 ∧
    (subscribeNewsletter subscriberDb2 (some "sam@example.com") 5000 "tok2").2.length
      = subscriberDb2.length ∧
    (⟨"sam@example.com", "active", 5000, none, "tok2"⟩ : Subscriber)
      ∈ (subscribeNewsletter subscriberDb2 (some "sam@example.com") 5000 "tok2").2 :=
  subscribe_reactivates_unsubscribed subscriberDb2 "sam@example.com" 5000 "tok2"
    ⟨"sam@example.com", "unsubscribed", 1000, some 2000, "tok1"⟩
    (by decide) (by decide) (by decide) rfl

/-! # C4: the reference code is assigned once and never mutated -/

theorem refCode_ne_empty (p : String) (t : Nat) (r : List (Fin 36)) :
    refCode p t r ≠ "" := by
  intro h
  have hlen := congrArg String.length h
  simp only [refCode, String.length_append] at hlen
  have hdash : ("-" : String).length = 1 := rfl
  have hempty : ("" : String).length = 0 := rfl
  rw [hdash, hempty] at hlen
  omega

theorem foldl_donationPreSave_ref (c : String) (hc : c ≠ "")
    (rest : List (Nat × List (Fin 36))) :
    ∀ a : Donation, a.donationReference = some c →
      (rest.foldl (fun a p => donationPreSave a p.1 p.2) a).donationReference = some c := by
  induction rest with
  | nil => intro a ha; exact ha
  | cons x xs ih =>
    intro a ha
    rw [List.foldl_cons]
    apply ih
    simp [donationPreSave, ha, hc]

theorem mediaPreSave_ref_of_filled (a : MediaSubmission) (t : Nat) (r : List (Fin 36))
    (c : String) (ha : a.submissionReference = some c) (hc : c ≠ "") :
    (mediaPreSave a t r).submissionReference = some c := by
  simp only [mediaPreSave, ha, Option.getD_some]
  rw [if_neg hc]
  split
  · split
    · exact ha
    · split <;> exact ha
  · exact ha

theorem foldl_mediaPreSave_ref (c : String) (hc : c ≠ "")
    (rest : List (Nat × List (Fin 36))) :
    ∀ a : MediaSubmission, a.submissionReference = some c →
      (rest.foldl (fun a p => mediaPreSave a p.1 p.2) a).submissionReference = some c := by
  induction rest with
  | nil => intro a ha; exact ha
  | cons x xs ih =>
    intro a ha
    rw [List.foldl_cons]
    exact ih _ (mediaPreSave_ref_of_filled a x.1 x.2 c ha hc)

/-- C4: on a document without a reference, the first save assigns the
generated code, and any sequence of later saves (at arbitrary times, with
arbitrary random draws) leaves that code exactly as assigned — for the
donation hook and for the media hook (whose later saves may still adjust
the media type but never the reference). -/
theorem reference_assigned_once
    (d : Donation) (m : MediaSubmission)
    (hd : d.donationReference = none) (hm : m.submissionReference = none)
    (t : Nat) (r : List (Fin 36)) (rest : List (Nat × List (Fin 36))) :
    (donationPreSave d t r).donationReference = some (refCode "DON" t r) ∧
    (rest.foldl (fun a p => donationPreSave a p.1 p.2)
        (donationPreSave d t r)).donationReference = some (refCode "DON" t r) ∧
    (mediaPreSave m t r).submissionReference = some (refCode "MED" t r) ∧
    (rest.foldl (fun a p => mediaPreSave a p.1 p.2)
        (mediaPreSave m t r)).submissionReference = some (refCode "MED" t r) := by
  have h1 : (donationPreSave d t r).donationReference = some (refCode "DON" t r) := by
    simp [donationPreSave, hd]
  have h2 : (mediaPreSave m t r).submissionReference = some (refCode "MED" t r) := by
    simp only [mediaPreSave, hm, Option.getD_none, if_true, eq_self_iff_true]
    split
    · split
      · rfl
      · split <;> rfl
    · rfl
  exact ⟨h1, foldl_donationPreSave_ref _ (refCode_ne_empty "DON" t r) rest _ h1,
         h2, foldl_mediaPreSave_ref _ (refCode_ne_empty "MED" t r) rest _ h2⟩

/-- C4, instantiated: a fresh donation and a fresh media submission saved
three times each keep the reference assigned by the first save. -/
theorem reference_assigned_once_witness :
    (donationPreSave donationDoc0 5 []).donationReference = some (refCode "DON" 5 []) ∧
    ([(6, []), (7, [])].foldl (fun a p => donationPreSave a p.1 p.2)
        (donationPreSave donationDoc0 5 [])).donationReference = some (refCode "DON" 5 []) ∧
    (mediaPreSave mediaDoc0 5 []).submissionReference = some (refCode "MED" 5 []) ∧
    ([(6, []), (7, [])].foldl (fun a p => mediaPreSave a p.1 p.2)
        (mediaPreSave mediaDoc0 5 [])).submissionReference = some (refCode "MED" 5 []) :=
  reference_assigned_once donationDoc0 mediaDoc0 rfl rfl 5 [] [(6, []), (7, [])]

/-! # C3: the reference-code pattern -/

/-- C3 counterexample: a draw of 0 from the random source prints as `"0"`,
whose `substring(2, 6)` is empty, and a timestamp below eight digits is not
padded, so the generated code fails the pattern
`^<PREFIX>-\d{8}-[A-Z0-9]{4}$`. -/
theorem refCode_pattern_counterexample :
    refCode "DON" 0 [] = "DON-0-" ∧
    matchesRefPattern "DON" (refCode "DON" 0 []) = false :=
  ⟨by decide, by decide⟩

theorem digitChar_isDigit {d : Nat} (h : d < 10) : (digitChar d).isDigit = true := by
  interval_cases d <;> decide

theorem decimalDigits_all_digit (n : Nat) :
    ∀ c ∈ decimalDigits n, c.isDigit = true := by
  intro c hc
  rw [decimalDigits] at hc
  split at hc
  · rw [List.mem_singleton] at hc
    subst hc
    decide
  · rw [List.mem_reverse, List.mem_map] at hc
    obtain ⟨d, hd, rfl⟩ := hc
    exact digitChar_isDigit (Nat.digits_lt_base (by norm_num) hd)

theorem decimalDigits_length_ge {n : Nat} (h : 10 ^ 7 ≤ n) :
    8 ≤ (decimalDigits n).length := by
  have hn : n ≠ 0 := by
    intro h0
    rw [h0] at h
    norm_num at h
  rw [decimalDigits, if_neg hn, List.length_reverse, List.length_map,
      Nat.digits_len 10 n (by norm_num) hn]
  have hlog : 7 ≤ Nat.log 10 n := (Nat.pow_le_iff_le_log (by norm_num) hn).mp h
  omega

theorem lastChars_length {k : Nat} {l : List Char} (h : k ≤ l.length) :
    (lastChars k l).length = k := by
  simp only [lastChars, List.length_drop]
  omega

theorem stripLit_append (pat : List Char) : ∀ l, stripLit pat (pat ++ l) = some l := by
  induction pat with
  | nil => intro l; rfl
  | cons a pat2 ih => intro l; simp [stripLit, ih]

theorem take_append_of_length {α : Type _} {l1 : List α} {n : Nat} (h : l1.length = n)
    (l2 : List α) : (l1 ++ l2).take n = l1 := by
  subst h
  exact List.take_left l1 l2

theorem drop_append_of_length {α : Type _} {l1 : List α} {n : Nat} (h : l1.length = n)
    (l2 : List α) : (l1 ++ l2).drop n = l2 := by
  subst h
  exact List.drop_left l1 l2

theorem refCode_data (p : String) (t : Nat) (r : List (Fin 36)) :
    (refCode p t r).data
      = p.data ++ '-' :: (lastChars 8 (decimalDigits t) ++ '-' :: (randSuffix r).data) := by
  have hdash : ("-" : String).data = ['-'] := rfl
  have htf : (timeFragment t).data = lastChars 8 (decimalDigits t) := rfl
  simp [refCode, String.data_append, hdash, htf]

/-- C3 amended: the code matches `^<PREFIX>-\d{8}-[A-Z0-9]{4}$` whenever
the timestamp has at least eight decimal digits (every real
`Date.now()` value does) and the drawn value's base-36 expansion carries at
least four fractional digits; when the expansion terminates earlier — for
example a draw of exactly 0, or of a value such as one quarter that prints
as `"0.9"` — the suffix is shorter than four characters and the pattern
fails. -/
theorem refCode_matches_pattern_amended (p : String) (ts : Nat) (rand : List (Fin 36))
    (hts : 10 ^ 7 ≤ ts) (hr : 4 ≤ rand.length) :
    matchesRefPattern p (refCode p ts rand) = true := by
  have htf : (lastChars 8 (decimalDigits ts)).length = 8 :=
    lastChars_length (decimalDigits_length_ge hts)
  have htfd : ∀ c ∈ lastChars 8 (decimalDigits ts), c.isDigit = true := fun c hc =>
    decimalDigits_all_digit ts c ((List.drop_sublist _ _).mem hc)
  have hsl : (randSuffix rand).data.length = 4 := by
    simp only [randSuffix, List.length_map, List.length_take]
    omega
  have hsa : ∀ c ∈ (randSuffix rand).data, isUpperAlnum c = true := by
    intro c hc
    obtain ⟨d, hd, rfl⟩ := List.mem_map.mp hc
    exact (by decide : ∀ d : Fin 36, isUpperAlnum ((base36Digit d).toUpper) = true) d
  have hstrip : stripLit (p.data ++ ['-']) (refCode p ts rand).data
      = some (lastChars 8 (decimalDigits ts) ++ '-' :: (randSuffix rand).data) := by
    rw [refCode_data]
    rw [show p.data ++ '-' :: (lastChars 8 (decimalDigits ts) ++ '-' :: (randSuffix rand).data)
          = (p.data ++ ['-'])
              ++ (lastChars 8 (decimalDigits ts) ++ '-' :: (randSuffix rand).data) from by
      simp]
    exact stripLit_append _ _
  rw [matchesRefPattern, hstrip]
  simp only [Bool.and_eq_true]
  refine ⟨⟨⟨?_, ?_⟩, ?_⟩, ?_⟩
  · simp only [List.length_append, List.length_cons, htf, hsl, decide_eq_true_eq]
  · rw [take_append_of_length htf, List.all_eq_true]
    exact htfd
  · rw [drop_append_of_length htf]
    simp
  · have hdrop9 : (lastChars 8 (decimalDigits ts) ++ '-' :: (randSuffix rand).data).drop 9
        = (randSuffix rand).data := by
      rw [show (9 : Nat) = 8 + 1 from rfl, ← List.drop_drop, drop_append_of_length htf]
      rfl
    rw [hdrop9, List.all_eq_true]
    exact hsa

/-- C3 amended, instantiated: an eight-digit timestamp and four base-36
digits produce a code matching the pattern. -/
theorem refCode_matches_pattern_amended_witness :
    10 ^ 7 ≤ 10000000 ∧ 4 ≤ ([10, 2, 3, 4] : List (Fin 36)).length ∧
    matchesRefPattern "DON" (refCode "DON" 10000000 [10, 2, 3, 4]) = true :=
  ⟨by norm_num, by decide,
   refCode_matches_pattern_amended "DON" 10000000 [10, 2, 3, 4] (by norm_num) (by decide)⟩

/-! # C5: unlisted expertise values -/

/-- C5 counterexample: a volunteer submission whose expertise array holds
the unlisted value `Cooking` is not rejected; it is accepted with 201 and
the stored expertise silently reduced to the listed values. -/
theorem registerVolunteer_invalid_expertise_counterexample :
    validExpertise.contains "Cooking" = false ∧
    (registerVolunteer [] volunteerReqCooking 0 [] "ip" "ua").1 = 201 ∧
    (registerVolunteer [] volunteerReqCooking 0 [] "ip" "ua").2.map (fun v => v.expertise)
      = [["Education"]] :=
  ⟨by decide, by decide, by decide⟩

/-- C5 amended: submitted expertise values outside the closed set do not
cause rejection; every accepted volunteer submission stores exactly the
sanitized submitted values that belong to the closed set, so the stored
array always lies inside the enumeration. -/
theorem registerVolunteer_filters_expertise_amended
    (db : List Volunteer) (req : VolunteerRequest) (now : Nat) (rand : List (Fin 36))
    (ip ua : String) (db2 : List Volunteer)
    (h : registerVolunteer db req now rand ip ua = (201, db2)) :
    ∃ v : Volunteer, db2 = db ++ [v] ∧
      v.expertise = ((req.expertise.getD []).map sanitizeInput).filter
        (fun e => validExpertise.contains e) ∧
      v.expertise.all (fun e => validExpertise.contains e) = true := by
  simp only [registerVolunteer] at h
  repeat' split at h
  all_goals injection h with h1 h2
  all_goals try simp at h1
  refine ⟨_, h2.symm, rfl, ?_⟩
  rw [List.all_eq_true]
  intro e he
  exact (List.mem_filter.mp he).2

/-- C5 amended, instantiated on the sample request. -/
theorem registerVolunteer_filters_expertise_amended_witness :
    ∃ v : Volunteer,
      (registerVolunteer [] volunteerReqCooking 0 [] "ip" "ua").2 = [] ++ [v] ∧
      v.expertise = ((volunteerReqCooking.expertise.getD []).map sanitizeInput).filter
        (fun e => validExpertise.contains e) ∧
      v.expertise.all (fun e => validExpertise.contains e) = true :=
  registerVolunteer_filters_expertise_amended [] volunteerReqCooking 0 [] "ip" "ua"
    (registerVolunteer [] volunteerReqCooking 0 [] "ip" "ua").2 (by decide)

/-! # C10: contact-us priority derivation -/

/-- C10: the request carries no priority field, and every accepted
contact-us submission stores the priority derived from its sanitized
subject: `donation` and `partnership` give high, `general-inquiry` gives
low, and the remaining valid subjects give medium. -/
theorem contactUs_priority_from_subject
    (db : List ContactUs) (req : ContactUsRequest) (now : Nat) (rand : List (Fin 36))
    (ip ua : String) (db2 : List ContactUs)
    (h : submitContactUs db req now rand ip ua = (201, db2)) :
    (∃ c : ContactUs, db2 = db ++ [c] ∧
        c.subject = sanitizeInput (req.subject.getD "") ∧
        c.priority = contactPriority c.subject) ∧
    contactPriority "donation" = "high" ∧ contactPriority "partnership" = "high" ∧
    contactPriority "general-inquiry" = "low" ∧ contactPriority "volunteering" = "medium" ∧
    contactPriority "internship" = "medium" ∧ contactPriority "other" = "medium" := by
  refine ⟨?_, by decide, by decide, by decide, by decide, by decide, by decide⟩
  simp only [submitContactUs] at h
  repeat' split at h
  all_goals injection h with h1 h2
  all_goals try simp at h1
  exact ⟨_, h2.symm, rfl, rfl⟩

/-- C10, instantiated: the sample `donation`-subject submission stores
priority `high`. -/
theorem contactUs_priority_from_subject_witness :
    (∃ c : ContactUs,
        (submitContactUs [] contactReq1 0 [] "ip" "ua").2 = [] ++ [c] ∧
        c.subject = sanitizeInput (contactReq1.subject.getD "") ∧
        c.priority = contactPriority c.subject) ∧
    contactPriority "donation" = "high" ∧ contactPriority "partnership" = "high" ∧
    contactPriority "general-inquiry" = "low" ∧ contactPriority "volunteering" = "medium" ∧
    contactPriority "internship" = "medium" ∧ contactPriority "other" = "medium" :=
  contactUs_priority_from_subject [] contactReq1 0 [] "ip" "ua"
    (submitContactUs [] contactReq1 0 [] "ip" "ua").2 (by decide)

/-! # C6: the contact-us fifteen-minute duplicate window -/

/-- C6: an otherwise-valid contact-us submission whose email already
appears on a record created within the last fifteen minutes is rejected
with 429 and the collection — hence its record count — is unchanged. -/
theorem contactUs_duplicate_window_429
    (db : List ContactUs) (req : ContactUsRequest) (now : Nat) (rand : List (Fin 36))
    (ip ua : String)
    (hpres : (truthy req.fullName && truthy req.email && truthy req.mobile &&
              truthy req.subject && truthy req.message) = true)
    (hname1 : 2 ≤ (sanitizeInput (req.fullName.getD "")).length)
    (hname2 : (sanitizeInput (req.fullName.getD "")).length ≤ 100)
    (hmail : validateEmail (sanitizeInput (jsToLower (req.email.getD ""))) = true)
    (hmob : (validateMobile (sanitizeInput (req.mobile.getD ""))).isSome = true)
    (hsubj : contactSubjects.contains (sanitizeInput (req.subject.getD "")) = true)
    (hmsg1 : 10 ≤ (sanitizeInput (req.message.getD "")).length)
    (hmsg2 : (sanitizeInput (req.message.getD "")).length ≤ 1500)
    (hdup : (db.find? (fun r => r.email == sanitizeInput (jsToLower (req.email.getD ""))
              && now - 900000 ≤ r.createdAt)).isSome = true) :
    submitContactUs db req now rand ip ua = (429, db) ∧
    (submitContactUs db req now rand ip ua).2.length = db.length := by
  obtain ⟨cp, hcp⟩ := Option.isSome_iff_exists.mp hmob
  have hmain : submitContactUs db req now rand ip ua = (429, db) := by
    simp only [submitContactUs]
    rw [if_neg (by rw [hpres]; decide)]
    rw [if_neg (by simp only [Bool.or_eq_true, decide_eq_true_eq, not_or, not_lt]
                   exact ⟨hname1, hname2⟩)]
    rw [if_neg (by rw [hmail]; decide)]
    rw [hcp]
    dsimp only
    rw [if_neg (by rw [hsubj]; decide)]
    rw [if_neg (by simp only [Bool.or_eq_true, decide_eq_true_eq, not_or, not_lt]
                   exact ⟨hmsg1, hmsg2⟩)]
    rw [if_pos hdup]
  exact ⟨hmain, by rw [hmain]⟩

/-- C6, instantiated: resubmitting the sample request 500 seconds after
its first accepted submission. -/
theorem contactUs_duplicate_window_429_witness :
    submitContactUs contactDb1 contactReq1 2000000000 [] "ip" "ua" = (429, contactDb1) ∧
    (submitContactUs contactDb1 contactReq1 2000000000 [] "ip" "ua").2.length
      = contactDb1.length :=
  contactUs_duplicate_window_429 contactDb1 contactReq1 2000000000 [] "ip" "ua"
    (by decide) (by decide) (by decide) (by decide) (by decide) (by decide) (by decide)
    (by decide) (by decide)

/-! # C7: event-registration uniqueness on email and event id -/

theorem eventRegOf_eventId_irrel (req : EventRegRequest) (e : Option Nat)
    (eid now : Nat) (rand : List (Fin 36)) (ip ua : String) :
    eventRegOf { req with eventId := e } eid now rand ip ua
      = eventRegOf req eid now rand ip ua := rfl

/-- C7: starting from a collection where the submitter's email is
registered for neither event, a valid registration for the first event is
created (201); repeating it for the same event answers 409 and creates no
record; registering the same email for the second, different event
succeeds (201) and appends exactly one record. -/
theorem eventRegistration_uniqueness
    (db : List EventRegistration) (req : EventRegRequest) (e1 e2 : Nat)
    (now1 now2 now3 : Nat) (r1 r2 r3 : List (Fin 36)) (ip ua : String)
    (hp1 : truthy req.fullName = true) (hp2 : truthy req.email = true)
    (hp3 : truthy req.mobileNumber = true) (hp4 : truthy req.isPersonWithDisability = true)
    (hp5 : truthy req.eventTitle = true)
    (hname1 : 2 ≤ (sanitizeInput (req.fullName.getD "")).length)
    (hname2 : (sanitizeInput (req.fullName.getD "")).length ≤ 100)
    (hmail : validateEmail (sanitizeInput (jsToLower (req.email.getD ""))) = true)
    (hmob : validateMobileNumber (sanitizeInput (req.mobileNumber.getD "")) = true)
    (hipwd : ["Yes", "No"].contains (req.isPersonWithDisability.getD "") = true)
    (hdis1 : (req.isPersonWithDisability.getD "" == "Yes"
        && optSanitize req.disabilityType == "") = false)
    (hdis2 : (optSanitize req.disabilityType == "Other (please specify)"
        && optSanitize req.otherDisabilityText == "") = false)
    (hfresh1 : isAlreadyRegistered db (sanitizeInput (jsToLower (req.email.getD ""))) e1
        = false)
    (hfresh2 : isAlreadyRegistered db (sanitizeInput (jsToLower (req.email.getD ""))) e2
        = false)
    (hne : e2 ≠ e1)
    (hvalid : eventRegSchemaValid (eventRegOf req e1 now1 r1 ip ua) = true) :
    registerForEvent db { req with eventId := some e1 } now1 r1 ip ua
      = (201, db ++ [eventRegOf req e1 now1 r1 ip ua]) ∧
    registerForEvent (db ++ [eventRegOf req e1 now1 r1 ip ua]) { req with eventId := some e1 }
        now2 r2 ip ua
      = (409, db ++ [eventRegOf req e1 now1 r1 ip ua]) ∧
    registerForEvent (db ++ [eventRegOf req e1 now1 r1 ip ua]) { req with eventId := some e2 }
        now3 r3 ip ua
      = (201, (db ++ [eventRegOf req e1 now1 r1 ip ua]) ++ [eventRegOf req e2 now3 r3 ip ua])
    := by
  have hpred1 : (fun r : EventRegistration =>
      r.email == jsTrim (jsToLower (sanitizeInput (jsToLower (req.email.getD ""))))
        && r.eventId == e1) (eventRegOf req e1 now1 r1 ip ua) = true := by
    simp [eventRegOf]
  have hbeq2 : (e1 == e2) = false := by
    simpa using Ne.symm hne
  have hpred2 : (fun r : EventRegistration =>
      r.email == jsTrim (jsToLower (sanitizeInput (jsToLower (req.email.getD ""))))
        && r.eventId == e2) (eventRegOf req e1 now1 r1 ip ua) = false := by
    simp [eventRegOf, hbeq2]
  have hdb1 : db.find? (fun r =>
      r.email == jsTrim (jsToLower (sanitizeInput (jsToLower (req.email.getD ""))))
        && r.eventId == e1) = none := by
    have h := hfresh1
    unfold isAlreadyRegistered at h
    exact isSome_eq_false_iff_none.mp h
  have hdb2 : db.find? (fun r =>
      r.email == jsTrim (jsToLower (sanitizeInput (jsToLower (req.email.getD ""))))
        && r.eventId == e2) = none := by
    have h := hfresh2
    unfold isAlreadyRegistered at h
    exact isSome_eq_false_iff_none.mp h
  have hdup2 : isAlreadyRegistered (db ++ [eventRegOf req e1 now1 r1 ip ua])
      (sanitizeInput (jsToLower (req.email.getD ""))) e1 = true := by
    unfold isAlreadyRegistered
    rw [List.find?_isSome]
    exact ⟨eventRegOf req e1 now1 r1 ip ua, by simp, hpred1⟩
  have hdup3 : isAlreadyRegistered (db ++ [eventRegOf req e1 now1 r1 ip ua])
      (sanitizeInput (jsToLower (req.email.getD ""))) e2 = false := by
    unfold isAlreadyRegistered
    rw [isSome_eq_false_iff_none, List.find?_eq_none]
    intro x hx
    rcases List.mem_append.mp hx with hx2 | hx2
    · exact List.find?_eq_none.mp hdb2 x hx2
    · rw [List.mem_singleton] at hx2
      subst hx2
      simp [hpred2]
  have hvalid3 : eventRegSchemaValid (eventRegOf req e2 now3 r3 ip ua) = true := hvalid
  refine ⟨?_, ?_, ?_⟩
  · simp only [registerForEvent]
    dsimp only [Option.getD_some, Option.isSome_some]
    rw [eventRegOf_eventId_irrel req (some e1) e1 now1 r1 ip ua]
    rw [if_neg (by rw [hp1, hp2, hp3, hp4, hp5]; decide)]
    rw [if_neg (by simp only [Bool.or_eq_true, decide_eq_true_eq, not_or, not_lt]
                   exact ⟨hname1, hname2⟩)]
    rw [if_neg (by rw [hmail]; decide)]
    rw [if_neg (by rw [hmob]; decide)]
    rw [if_neg (by rw [hipwd]; decide)]
    rw [if_neg (by rw [hdis1]; decide)]
    rw [if_neg (by rw [hdis2]; decide)]
    rw [if_neg (by rw [hfresh1]; decide)]
    rw [if_pos hvalid]
  · simp only [registerForEvent]
    dsimp only [Option.getD_some, Option.isSome_some]
    rw [eventRegOf_eventId_irrel req (some e1) e1 now2 r2 ip ua]
    rw [if_neg (by rw [hp1, hp2, hp3, hp4, hp5]; decide)]
    rw [if_neg (by simp only [Bool.or_eq_true, decide_eq_true_eq, not_or, not_lt]
                   exact ⟨hname1, hname2⟩)]
    rw [if_neg (by rw [hmail]; decide)]
    rw [if_neg (by rw [hmob]; decide)]
    rw [if_neg (by rw [hipwd]; decide)]
    rw [if_neg (by rw [hdis1]; decide)]
    rw [if_neg (by rw [hdis2]; decide)]
    rw [if_pos hdup2]
  · simp only [registerForEvent]
    dsimp only [Option.getD_some, Option.isSome_some]
    rw [eventRegOf_eventId_irrel req (some e2) e2 now3 r3 ip ua]
    rw [if_neg (by rw [hp1, hp2, hp3, hp4, hp5]; decide)]
    rw [if_neg (by simp only [Bool.or_eq_true, decide_eq_true_eq, not_or, not_lt]
                   exact ⟨hname1, hname2⟩)]
    rw [if_neg (by rw [hmail]; decide)]
    rw [if_neg (by rw [hmob]; decide)]
    rw [if_neg (by rw [hipwd]; decide)]
    rw [if_neg (by rw [hdis1]; decide)]
    rw [if_neg (by rw [hdis2]; decide)]
    rw [if_neg (by rw [hdup3]; decide)]
    rw [if_pos hvalid3]

/-- C7, instantiated: the sample registrant on events 1 and 2 over the
empty collection. -/
theorem eventRegistration_uniqueness_witness :
    registerForEvent [] { eventReqBase with eventId := some 1 } 0 [] "ip" "ua"
      = (201, [] ++ [eventRegOf eventReqBase 1 0 [] "ip" "ua"]) ∧
    registerForEvent ([] ++ [eventRegOf eventReqBase 1 0 [] "ip" "ua"])
        { eventReqBase with eventId := some 1 } 0 [] "ip" "ua"
      = (409, [] ++ [eventRegOf eventReqBase 1 0 [] "ip" "ua"]) ∧
    registerForEvent ([] ++ [eventRegOf eventReqBase 1 0 [] "ip" "ua"])
        { eventReqBase with eventId := some 2 } 0 [] "ip" "ua"
      = (201, ([] ++ [eventRegOf eventReqBase 1 0 [] "ip" "ua"])
                ++ [eventRegOf eventReqBase 2 0 [] "ip" "ua"]) :=
  eventRegistration_uniqueness [] eventReqBase 1 2 0 0 0 [] [] [] "ip" "ua"
    (by decide) (by decide) (by decide) (by decide) (by decide) (by decide) (by decide)
    (by decide) (by decide) (by decide) (by decide) (by decide) (by decide) (by decide)
    (by decide) (by decide)

end MAD
